import Mathlib

/-
Verification development for the DMARC analytics dashboard (Hono/Cloudflare
Workers application).  The repository contains several near-duplicate route
trees; the definitions below are shallow embeddings of the functions in
`src/index.js` (three concatenated revisions) and `unnamed/part_000`.

JavaScript conventions used throughout the embedding:
- a value of JS type `string | undefined` (or `string | null`, as returned by
  `c.req.query(..)` and by KV `get`) is modelled as `Option String`;
- JS truthiness of such a value is `(o.getD "") ≠ ""` (both `undefined`/`null`
  and the empty string are falsy, every other string is truthy);
- a JS function that can throw is modelled with `Except String`; the Hono
  `app.onError` middleware that catches anything uncaught and returns the
  generic 500 page is modelled by mapping `Except.error` to `.errorPage`.
-/

namespace DmarcDash

/-- Responses produced by the embedded routes: plain text with a status code,
a redirect, a successfully rendered HTML page (represented by the list of
rendered data cells relevant to the claims), or the generic 500 page produced
by the `app.onError` handler. -/
inductive HttpResponse
  | text (status : Nat) (body : String)
  | redirect (location : String)
  | page (cells : List String)
  | errorPage
deriving DecidableEq

/-- Result of an auth middleware: either a response returned without calling
`next()` (so the route handler never runs), or `proceed cid` meaning the
middleware stored `cid` in the request context via `c.set('customerId', ..)`
and called `await next()`. -/
inductive GuardResult
  | reject (status : Nat) (body : String)
  | redirect (location : String)
  | proceed (customerId : String)
deriving DecidableEq

/-- Token-parameter auth middleware, from `app.use('*')` in the first revision
of `src/index.js` (lines 35-48) and `app.use('/dashboard/*')` in
`unnamed/part_000` (lines 34-47).  `customer` is `c.req.query('customer')`
(absent parameter gives `none`, `?customer=` gives `some ""`), and
`dmarcDomains` is the external `c.env.DMARC_DOMAINS` KV namespace
(missing key gives `none`). -/
def tokenAuthMiddleware (customer : Option String)
    (dmarcDomains : String → Option String) : GuardResult :=
  let customerId := customer.getD ""
  if customerId = "" then .reject 400 "Missing customer parameter"
  else
    let isValid := (dmarcDomains customerId).getD ""
    if isValid = "" then .reject 401 "Invalid customer"
    else .proceed customerId

/-- Composition of the token-parameter middleware with a report handler, as
Hono runs them: the handler body executes only when the middleware calls
`next()`.  A handler maps the context `customerId` to its response together
with the list of SQL queries it executed; a middleware rejection produces the
middleware's response and an empty query list. -/
def runTokenRoute (customer : Option String)
    (dmarcDomains : String → Option String)
    (handler : String → HttpResponse × List String) :
    HttpResponse × List String :=
  match tokenAuthMiddleware customer dmarcDomains with
  | .reject s b => (.text s b, [])
  | .redirect l => (.redirect l, [])
  | .proceed cid => handler cid

/-- C1 (counterexample): the claim says a present `customer` parameter whose
allowlist lookup is falsy yields status 401.  The request `?customer=` has the
parameter present with value `""`; the guard answers 400 ("Missing customer
parameter") without consulting the allowlist, not 401. -/
theorem token_guard_empty_customer_counterexample :
    tokenAuthMiddleware (some "") (fun _ => none) =
      .reject 400 "Missing customer parameter" ∧
    tokenAuthMiddleware (some "") (fun _ => none) ≠
      .reject 401 "Invalid customer" := by
  constructor
  · rfl
  · intro h
    simp [tokenAuthMiddleware] at h

/-- C1 (amended): in token-parameter mode, a request whose `customer`
parameter is absent or empty gets status 400 and no report query executes; a
request with a non-empty parameter whose allowlist lookup is falsy gets
status 401 and no report query executes; otherwise the identifier is attached
to the request context and the handler proceeds with it. -/
theorem token_guard_modes (customer : Option String)
    (dmarcDomains : String → Option String)
    (handler : String → HttpResponse × List String) :
    (customer.getD "" = "" →
      runTokenRoute customer dmarcDomains handler =
        (.text 400 "Missing customer parameter", [])) ∧
    (∀ cid, customer = some cid → cid ≠ "" →
      (dmarcDomains cid).getD "" = "" →
      runTokenRoute customer dmarcDomains handler =
        (.text 401 "Invalid customer", [])) ∧
    (∀ cid, customer = some cid → cid ≠ "" →
      (dmarcDomains cid).getD "" ≠ "" →
      runTokenRoute customer dmarcDomains handler = handler cid) := by
  refine ⟨?_, ?_, ?_⟩
  · intro h
    simp [runTokenRoute, tokenAuthMiddleware, h]
  · intro cid hc hne hfal
    subst hc
    simp [runTokenRoute, tokenAuthMiddleware, hne, hfal]
  · intro cid hc hne htr
    subst hc
    simp [runTokenRoute, tokenAuthMiddleware, hne, htr]

/-- C1 (witness): concrete requests exercising the 401 branch and the
proceed branch of `token_guard_modes`. -/
theorem token_guard_modes_witness :
    runTokenRoute (some "acme") (fun _ => none)
        (fun cid => (.page [cid], ["overview"])) =
      (.text 401 "Invalid customer", []) ∧
    runTokenRoute (some "acme") (fun _ => some "1")
        (fun cid => (.page [cid], ["overview"])) =
      (.page ["acme"], ["overview"]) := by
  constructor
  · exact (token_guard_modes (some "acme") (fun _ => none)
      (fun cid => (.page [cid], ["overview"]))).2.1 "acme" rfl
      (by decide) (by decide)
  · exact (token_guard_modes (some "acme") (fun _ => some "1")
      (fun cid => (.page [cid], ["overview"]))).2.2 "acme" rfl
      (by decide) (by decide)

/-- Claim set of a session JWT.  The routes sign `{ customerId, exp }`; both
fields are optional at the JSON level, so both are `Option`. -/
structure JwtPayload where
  customerId : Option String
  exp : Option Nat
deriving DecidableEq

/-- Session JWT.  Modelled from the hono/jwt library (external dependency):
the HMAC signature over the payload is modelled as the injective pair of the
signing secret and the payload, which gives exactly the property the scheme
provides — a signature validates against `secret` iff the token was produced
by `sign` with that `secret` and this payload. -/
structure Jwt where
  payload : JwtPayload
  sig : String × JwtPayload
deriving DecidableEq

/-- Token issuance `sign(payload, secret)`, modelled from hono/jwt. -/
def sign (payload : JwtPayload) (secret : String) : Jwt :=
  ⟨payload, (secret, payload)⟩

/-- Token verification `verify(token, secret)`, modelled from hono/jwt: it
throws on a signature mismatch, throws `JwtTokenExpired` when the token
carries an `exp` claim earlier than the current time, and otherwise returns
the decoded payload.  `now` is `Math.floor(Date.now() / 1000)`. -/
def verify (t : Jwt) (secret : String) (now : Nat) :
    Except String JwtPayload :=
  if t.sig = (secret, t.payload) then
    match t.payload.exp with
    | some e => if e < now then .error "JwtTokenExpired" else .ok t.payload
    | none => .ok t.payload
  else .error "JwtTokenSignatureMismatched"

/-- Value of the `jwt` cookie as seen by `getCookie(c, 'jwt')`: absent,
present but the empty string (e.g. after the logout route overwrote it),
present but not a well-formed JWT (verification throws while decoding), or a
well-formed token. -/
inductive CookieVal
  | absent
  | emptyStr
  | malformed
  | token (t : Jwt)

/-- Session-cookie auth middleware, from `app.use('/dashboard/*')` in the
third revision of `src/index.js` (lines 1069-1092): a falsy cookie redirects
to `/logout`; a verification error (malformed token, bad signature, expired
token) is caught and redirects to `/logout`; a falsy `customerId` claim
redirects to `/logout`; otherwise the claim is stored in the context and
`next()` runs. -/
def dashboardAuthMiddleware (cookie : CookieVal) (secret : String)
    (now : Nat) : GuardResult :=
  match cookie with
  | .absent => .redirect "/logout"
  | .emptyStr => .redirect "/logout"
  | .malformed => .redirect "/logout"
  | .token t =>
    match verify t secret now with
    | .error _ => .redirect "/logout"
    | .ok decodedPayload =>
      if decodedPayload.customerId.getD "" = "" then .redirect "/logout"
      else .proceed (decodedPayload.customerId.getD "")

/-- Composition of the session-cookie middleware with a dashboard handler,
as Hono runs them. -/
def runDashboardRoute (cookie : CookieVal) (secret : String) (now : Nat)
    (handler : String → HttpResponse × List String) :
    HttpResponse × List String :=
  match dashboardAuthMiddleware cookie secret now with
  | .reject s b => (.text s b, [])
  | .redirect l => (.redirect l, [])
  | .proceed cid => handler cid

/-- C2: in session-cookie mode a missing/empty/unparsable cookie, a
signature mismatch, an expired token, and a missing tenant claim all
redirect to `/logout` with no dashboard handler running (so a token is never
accepted after expiry or on signature mismatch); a signed, unexpired token
with a non-empty `customerId` claim proceeds into the handler with that
claim attached. -/
theorem session_guard_modes (cookie : CookieVal) (secret : String)
    (now : Nat) (handler : String → HttpResponse × List String) :
    (cookie = .absent ∨ cookie = .emptyStr ∨ cookie = .malformed →
      runDashboardRoute cookie secret now handler =
        (.redirect "/logout", [])) ∧
    (∀ t, cookie = .token t → t.sig ≠ (secret, t.payload) →
      runDashboardRoute cookie secret now handler =
        (.redirect "/logout", [])) ∧
    (∀ t e, cookie = .token t → t.payload.exp = some e → e < now →
      runDashboardRoute cookie secret now handler =
        (.redirect "/logout", [])) ∧
    (∀ t p, cookie = .token t → verify t secret now = .ok p →
      p.customerId.getD "" = "" →
      runDashboardRoute cookie secret now handler =
        (.redirect "/logout", [])) ∧
    (∀ t p cid, cookie = .token t → verify t secret now = .ok p →
      p.customerId = some cid → cid ≠ "" →
      runDashboardRoute cookie secret now handler = handler cid) := by
  refine ⟨?_, ?_, ?_, ?_, ?_⟩
  · rintro (rfl | rfl | rfl) <;> rfl
  · intro t ht hsig
    subst ht
    simp [runDashboardRoute, dashboardAuthMiddleware, verify, hsig]
  · intro t e ht hexp hlt
    subst ht
    by_cases hsig : t.sig = (secret, t.payload)
    · simp [runDashboardRoute, dashboardAuthMiddleware, verify, hsig, hexp,
        hlt]
    · simp [runDashboardRoute, dashboardAuthMiddleware, verify, hsig]
  · intro t p ht hv hfal
    subst ht
    simp [runDashboardRoute, dashboardAuthMiddleware, hv, hfal]
  · intro t p cid ht hv hc hne
    subst ht
    simp [runDashboardRoute, dashboardAuthMiddleware, hv, hc, hne]

/-- C2 (witness): a signed unexpired token with claim `acme` proceeds into
the handler; the same payload signed under a different secret redirects to
`/logout`. -/
theorem session_guard_modes_witness :
    runDashboardRoute (.token (sign ⟨some "acme", some 2000⟩ "k")) "k" 1000
        (fun cid => (.page [cid], ["overview"])) =
      (.page ["acme"], ["overview"]) ∧
    runDashboardRoute (.token (sign ⟨some "acme", some 2000⟩ "other")) "k"
        1000 (fun cid => (.page [cid], ["overview"])) =
      (.redirect "/logout", []) := by
  constructor
  · exact (session_guard_modes (.token (sign ⟨some "acme", some 2000⟩ "k"))
      "k" 1000 (fun cid => (.page [cid], ["overview"]))).2.2.2.2
      (sign ⟨some "acme", some 2000⟩ "k") ⟨some "acme", some 2000⟩ "acme"
      rfl (by rfl) rfl (by decide)
  · exact (session_guard_modes
      (.token (sign ⟨some "acme", some 2000⟩ "other")) "k" 1000
      (fun cid => (.page [cid], ["overview"]))).2.1
      (sign ⟨some "acme", some 2000⟩ "other") rfl (by decide)

/-- External key-value store (`c.env.HUZZANDBUZZ_ACCOUNTS`): tenant id to
stored bcrypt hash; `get` of a missing key returns `null`, hence `none`. -/
def KvStore := String → Option String

/-- KV `put`, used by the register route. -/
def kvPut (store : KvStore) (key value : String) : KvStore :=
  fun k => if k = key then some value else store k

/-- Empty KV namespace. -/
def kvEmpty : KvStore := fun _ => none

/-- Modelled from the bcryptjs library (external dependency):
`bcrypt.hashSync(password, saltRounds)` produces a hash string from which the
rounds and (via the embedded salt) the password check can be recovered; the
random salt is abstracted away, keeping the information content `compareSync`
relies on: the hash determines which passwords match. -/
def hashSync (password : String) (saltRounds : Nat) : String :=
  String.mk ('$' :: '2' :: 'a' :: '$' ::
    ((toString saltRounds).data ++ '$' :: password.data))

/-- Parse helper for the embedded hash format: skip the rounds digits up to
the next `$` and return the remainder. -/
def dropRounds : List Char → Option (List Char)
  | [] => none
  | c :: rest =>
    if c = '$' then some rest
    else if c.isDigit then dropRounds rest
    else none

/-- Password check against a stored hash string produced by `hashSync`. -/
def checkPw (password hash : String) : Bool :=
  match hash.data with
  | '$' :: '2' :: 'a' :: '$' :: rest =>
    match dropRounds rest with
    | some pw => pw == password.data
    | none => false
  | _ => false

/-- Modelled from the bcryptjs library: `bcrypt.compareSync(s, hash)` throws
`Illegal arguments` when either argument is not a string — in particular when
the stored record is `undefined`/`null` because the tenant is unknown —
and otherwise returns whether the password matches the hash. -/
def compareSync (password : String) (hash : Option String) :
    Except String Bool :=
  match hash with
  | none => .error "Illegal arguments: string, object"
  | some h => .ok (checkPw password h)

/-- Options passed to `setCookie`; fields default to the Hono defaults
(absent). -/
structure CookieOpts where
  httpOnly : Bool := false
  maxAge : Option Nat := none
  secure : Bool := false
  sameSite : Option String := none
  path : Option String := none
  expires : Option Nat := none
deriving DecidableEq

/-- Result of the register route: the HTTP response, the `jwt` cookie set by
`setCookie` (if any), and the credential store after the request. -/
structure RegisterOutcome where
  response : HttpResponse
  cookie : Option (Jwt × CookieOpts)
  store : KvStore

/-- Result of the login route: the HTTP response and the `jwt` cookie set by
`setCookie` (if any). -/
structure LoginOutcome where
  response : HttpResponse
  cookie : Option (Jwt × CookieOpts)
deriving DecidableEq

/-- Session token issued by both register and login:
`sign({ customerId, exp: Math.floor(Date.now() / 1000) + 60 * 60 * 24 },
JWT_SECRET_KEY)`.  `nowMs` is `Date.now()`. -/
def issueToken (customerId : String) (nowMs : Nat) (secret : String) : Jwt :=
  sign ⟨some customerId, some (nowMs / 1000 + 60 * 60 * 24)⟩ secret

/-- Register route `app.post('/register')`, from `src/index.js` lines
1570-1592: an existing (truthy) record gives 409 without touching the store;
otherwise a truthy password is salted and hashed, the record persisted, a
24-hour token set as an http-only cookie with `maxAge: 24 * 60 * 60`, and the
response redirects to `/dashboard/config`; a falsy password gives 401. -/
def registerPost (store : KvStore) (customerId password : String)
    (nowMs : Nat) (secret : String) : RegisterOutcome :=
  let alreadyExists := store customerId
  if alreadyExists.getD "" ≠ "" then
    ⟨.text 409 "Customer ID already exist", none, store⟩
  else if password ≠ "" then
    let hashedPassword := hashSync password 10
    ⟨.redirect "/dashboard/config",
      some (issueToken customerId nowMs secret,
        { httpOnly := true, maxAge := some (24 * 60 * 60) }),
      kvPut store customerId hashedPassword⟩
  else ⟨.text 401 "Invalid credentials", none, store⟩

/-- Login route body `app.post('/login')`, from `src/index.js` lines
1594-1607, before the `onError` wrapper: the stored record is passed straight
into `bcrypt.compareSync`, whose exception propagates; on a match a fresh
24-hour token is set as a cookie with options `{ httpOnly: true }` only, and
the response redirects to `/dashboard/`; otherwise 401 with no cookie. -/
def loginPostBody (store : KvStore) (customerId password : String)
    (nowMs : Nat) (secret : String) : Except String LoginOutcome :=
  let accountPassword := store customerId
  match compareSync password accountPassword with
  | .error e => .error e
  | .ok isMatch =>
    if isMatch then
      .ok ⟨.redirect "/dashboard/",
        some (issueToken customerId nowMs secret, { httpOnly := true })⟩
    else .ok ⟨.text 401 "Invalid credentials", none⟩

/-- Login route as served, with the `app.onError` middleware converting any
uncaught exception into the generic 500 page (and no cookie). -/
def loginPost (store : KvStore) (customerId password : String)
    (nowMs : Nat) (secret : String) : LoginOutcome :=
  match loginPostBody store customerId password nowMs secret with
  | .error _ => ⟨.errorPage, none⟩
  | .ok outcome => outcome

/-- Helper: a hash produced by `hashSync` is never the empty string, so a
stored credential record is always truthy. -/
theorem hashSync_ne_empty (p : String) (r : Nat) : hashSync p r ≠ "" := by
  intro h
  have hd := congrArg String.data h
  simp [hashSync] at hd

/-- C3: evaluation of the login route at a tenant with no credential record:
`bcrypt.compareSync(password, undefined)` throws `Illegal arguments`, the
top-level error handler renders the generic 500 page, and no cookie is set —
the code does not return the 401 the claim (and the spec's Login contract)
requires. -/
theorem login_unknown_tenant_500 :
    loginPost kvEmpty "alice" "pw" 1700000000000 "k" =
      ⟨.errorPage, none⟩ ∧
    loginPost kvEmpty "alice" "pw" 1700000000000 "k" ≠
      ⟨.text 401 "Invalid credentials", none⟩ := by
  constructor
  · rfl
  · intro h
    simp [loginPost, loginPostBody, compareSync, kvEmpty] at h

/-- C4: once a register request for `customerId` succeeds (redirecting to the
configuration page), a second register request for the same identifier
returns 409 with no cookie and leaves the whole credential store — in
particular the record written by the first request — unchanged. -/
theorem register_duplicate_409 (store : KvStore)
    (customerId p1 p2 : String) (n1 n2 : Nat) (secret1 secret2 : String)
    (hfirst : (registerPost store customerId p1 n1 secret1).response =
      .redirect "/dashboard/config") :
    (registerPost (registerPost store customerId p1 n1 secret1).store
        customerId p2 n2 secret2).response =
      .text 409 "Customer ID already exist" ∧
    (registerPost (registerPost store customerId p1 n1 secret1).store
        customerId p2 n2 secret2).cookie = none ∧
    (registerPost (registerPost store customerId p1 n1 secret1).store
        customerId p2 n2 secret2).store =
      (registerPost store customerId p1 n1 secret1).store := by
  by_cases hex : (store customerId).getD "" ≠ ""
  · simp [registerPost, hex] at hfirst
  · by_cases hp : p1 ≠ ""
    · have hstore : (registerPost store customerId p1 n1 secret1).store =
          kvPut store customerId (hashSync p1 10) := by
        simp [registerPost, hex, hp]
      have hlook : (kvPut store customerId (hashSync p1 10)) customerId =
          some (hashSync p1 10) := by
        simp [kvPut]
      have htruthy :
          ((kvPut store customerId (hashSync p1 10)) customerId).getD ""
            ≠ "" := by
        rw [hlook]
        simpa using hashSync_ne_empty p1 10
      rw [hstore]
      refine ⟨?_, ?_, ?_⟩ <;>
        simp [registerPost, htruthy]
    · simp [registerPost, hex, hp] at hfirst

/-- C4 (witness): registering `alice` on an empty store succeeds; the
duplicate attempt gets 409, sets no cookie, and leaves the store as the
first request left it. -/
theorem register_duplicate_409_witness :
    (registerPost (registerPost kvEmpty "alice" "pw" 1000 "k").store
        "alice" "pw2" 2000 "k").response =
      .text 409 "Customer ID already exist" ∧
    (registerPost (registerPost kvEmpty "alice" "pw" 1000 "k").store
        "alice" "pw2" 2000 "k").cookie = none ∧
    (registerPost (registerPost kvEmpty "alice" "pw" 1000 "k").store
        "alice" "pw2" 2000 "k").store =
      (registerPost kvEmpty "alice" "pw" 1000 "k").store :=
  register_duplicate_409 kvEmpty "alice" "pw" "pw2" 1000 2000 "k" "k"
    (by rfl)

/-- C9 (counterexample): the cookie issued by a successful login is http-only
but carries neither `maxAge` nor `expires` — it is a browser-session cookie,
not one with a 24-hour expiry as the claim states. -/
theorem login_cookie_no_max_age_counterexample :
    (loginPost (kvPut kvEmpty "alice" (hashSync "pw" 10)) "alice" "pw"
        1700000000000 "k").cookie.map
        (fun cookieVal =>
          (cookieVal.2.httpOnly, cookieVal.2.maxAge, cookieVal.2.expires)) =
      some (true, none, none) := by
  rfl

/-- C9 (amended): every session token issued at registration or login
carries `exp` exactly 24 hours (86400 seconds) after the issuing instant and
a `customerId` claim, and the cookie carrying it is http-only; at
registration the cookie also has `maxAge` of 24 hours, while at login no
`maxAge` or `expires` is set at all. -/
theorem session_token_expiry (store : KvStore)
    (customerId password : String) (nowMs : Nat) (secret : String) :
    (∀ t opts,
      (registerPost store customerId password nowMs secret).cookie =
        some (t, opts) →
      t.payload.exp = some (nowMs / 1000 + 60 * 60 * 24) ∧
      t.payload.customerId = some customerId ∧
      opts.httpOnly = true ∧ opts.maxAge = some (24 * 60 * 60)) ∧
    (∀ t opts,
      (loginPost store customerId password nowMs secret).cookie =
        some (t, opts) →
      t.payload.exp = some (nowMs / 1000 + 60 * 60 * 24) ∧
      t.payload.customerId = some customerId ∧
      opts.httpOnly = true ∧ opts.maxAge = none ∧ opts.expires = none) := by
  constructor
  · intro t opts h
    by_cases hex : (store customerId).getD "" ≠ ""
    · simp [registerPost, hex] at h
    · by_cases hp : password ≠ ""
      · simp [registerPost, hex, hp, issueToken, sign] at h
        obtain ⟨ht, hopts⟩ := h
        subst ht
        subst hopts
        exact ⟨rfl, rfl, rfl, rfl⟩
      · simp [registerPost, hex, hp] at h
  · intro t opts h
    match hbody : loginPostBody store customerId password nowMs secret with
    | .error e => simp [loginPost, hbody] at h
    | .ok outcome =>
      have hout : outcome.cookie = some (t, opts) := by
        simpa [loginPost, hbody] using h
      match hcmp : compareSync password (store customerId) with
      | .error e => simp [loginPostBody, hcmp] at hbody
      | .ok isMatch =>
        by_cases hm : isMatch = true
        · have houtcome : outcome = ⟨.redirect "/dashboard/",
              some (issueToken customerId nowMs secret,
                { httpOnly := true })⟩ := by
            have hb := hbody
            simp [loginPostBody, hcmp, hm] at hb
            exact hb.symm
          subst houtcome
          simp [issueToken, sign] at hout
          obtain ⟨ht, hopts⟩ := hout
          subst ht
          subst hopts
          exact ⟨rfl, rfl, rfl, rfl, rfl⟩
        · have houtcome : outcome = ⟨.text 401 "Invalid credentials",
              none⟩ := by
            have hb := hbody
            simp [loginPostBody, hcmp, hm] at hb
            exact hb.symm
          subst houtcome
          simp at hout

/-- C9 (witness): concrete register and login invocations whose cookies have
the stated shape. -/
theorem session_token_expiry_witness :
    ((issueToken "alice" 1700000000000 "k").payload.exp =
        some (1700000000000 / 1000 + 60 * 60 * 24) ∧
      (issueToken "alice" 1700000000000 "k").payload.customerId =
        some "alice" ∧
      ({ httpOnly := true, maxAge := some (24 * 60 * 60) } :
        CookieOpts).httpOnly = true ∧
      ({ httpOnly := true, maxAge := some (24 * 60 * 60) } :
        CookieOpts).maxAge = some (24 * 60 * 60)) ∧
    ((issueToken "alice" 1700000000000 "k").payload.exp =
        some (1700000000000 / 1000 + 60 * 60 * 24) ∧
      (issueToken "alice" 1700000000000 "k").payload.customerId =
        some "alice" ∧
      ({ httpOnly := true } : CookieOpts).httpOnly = true ∧
      ({ httpOnly := true } : CookieOpts).maxAge = none ∧
      ({ httpOnly := true } : CookieOpts).expires = none) := by
  constructor
  · exact (session_token_expiry kvEmpty "alice" "pw" 1700000000000 "k").1
      (issueToken "alice" 1700000000000 "k")
      { httpOnly := true, maxAge := some (24 * 60 * 60) } (by rfl)
  · exact (session_token_expiry (kvPut kvEmpty "alice" (hashSync "pw" 10))
      "alice" "pw" 1700000000000 "k").2
      (issueToken "alice" 1700000000000 "k") { httpOnly := true } (by rfl)

/-- Row of the `dmarc_reports` table (the relational store's schema as used
by the queries; nullable free-text columns are `Option`). -/
structure ReportRow where
  customer_id : String
  source_ip : String
  header_from : String
  dkim_result : Int
  spf_result : Int
  disposition : Int
  date_range_begin : Int
  date_range_end : Int
  policy_override_type : Option String
  error : Option String
  count : Int
deriving DecidableEq, Inhabited

/-- Digit-grouping core of `Number.prototype.toLocaleString` (en-US default):
working over the reversed digit list, a comma is inserted after every three
digits. -/
def commaGroupRev : List Char → Nat → List Char
  | [], _ => []
  | c :: rest, k =>
    if k ≠ 0 ∧ k % 3 = 0 then ',' :: c :: commaGroupRev rest (k + 1)
    else c :: commaGroupRev rest (k + 1)

/-- Rendering `toLocaleString` for a natural number. -/
def natGroupedDigits (n : Nat) : String :=
  String.mk ((commaGroupRev (toString n).data.reverse 0).reverse)

/-- Rendering `toLocaleString` for an integer. -/
def intToLocaleString (i : Int) : String :=
  if i < 0 then "-" ++ natGroupedDigits i.natAbs
  else natGroupedDigits i.natAbs

/-- Rendering `Number.prototype.toFixed(d)` for a finite value, on the exact rational
the SQL layer computed (binary floating-point rounding artifacts are outside
the embedding): round half away from zero at `d` decimal places and render
with a padded fractional part. -/
def ratToFixed (q : ℚ) (d : Nat) : String :=
  let n : Int := q.num * (10 : Int) ^ d
  let a : Nat := n.natAbs
  let mn : Nat := (2 * a + q.den) / (2 * q.den)
  let ip := mn / 10 ^ d
  let fp := mn % 10 ^ d
  let fps := toString fp
  let fpPad := String.mk (List.replicate (d - fps.length) '0') ++ fps
  (if n < 0 ∧ mn ≠ 0 then "-" else "") ++
    (if d = 0 then toString ip else toString ip ++ "." ++ fpPad)

/-- Rendering `toFixed` on a value that may be SQL `NULL` (surfaced to JS as `null`):
calling a method on `null` throws a `TypeError`. -/
def jsToFixed (v : Option ℚ) (d : Nat) : Except String String :=
  match v with
  | none => .error "TypeError: Cannot read properties of null"
  | some q => .ok (ratToFixed q d)

/-- Result row of the overview statistics query. -/
structure OverviewRow where
  total_reports : Int
  unique_ips : Int
  unique_domains : Int
  success_rate : Option ℚ
deriving DecidableEq

/-- Rows of `dmarc_reports` matching the tenant. -/
def tenantRows (dmarc_reports : List ReportRow) (cid : String) :
    List ReportRow :=
  dmarc_reports.filter (fun r => r.customer_id == cid)

/-- Number of rows with `dkim_result = 1 AND spf_result = 1`. -/
def successCount (rows : List ReportRow) : Nat :=
  rows.countP (fun r => r.dkim_result == 1 && r.spf_result == 1)

/-- Overview query of the first revision's `app.get('/')` (`src/index.js`
lines 87-95): an aggregate query with no `GROUP BY` always yields exactly one
row; over zero matching rows the three counts are 0 and
`SUM(..) * 100.0 / COUNT(*)` is SQL `NULL` (SQLite division by zero). -/
def overviewStatsPlain (dmarc_reports : List ReportRow) (cid : String) :
    OverviewRow :=
  let rows := tenantRows dmarc_reports cid
  { total_reports := rows.length
    unique_ips := ((rows.map (fun r => r.source_ip)).dedup).length
    unique_domains := ((rows.map (fun r => r.header_from)).dedup).length
    success_rate :=
      if rows.length = 0 then none
      else some ((successCount rows : ℚ) * 100 / (rows.length : ℚ)) }

/-- Overview query of the third revision's `app.get('/dashboard/')`
(`src/index.js` lines 1123-1131): same aggregates, but the rate is wrapped in
`COALESCE(.. / NULLIF(COUNT(*), 0), 0)`, so zero matching rows give 0
instead of `NULL`. -/
def overviewStatsCoalesce (dmarc_reports : List ReportRow) (cid : String) :
    OverviewRow :=
  let rows := tenantRows dmarc_reports cid
  { total_reports := rows.length
    unique_ips := ((rows.map (fun r => r.source_ip)).dedup).length
    unique_domains := ((rows.map (fun r => r.header_from)).dedup).length
    success_rate :=
      if rows.length = 0 then some 0
      else some ((successCount rows : ℚ) * 100 / (rows.length : ℚ)) }

/-- Rendering of the four stat cards: three `toLocaleString` calls and
`statsObj.success_rate.toFixed(1)`; the `toFixed` call throws when the rate
is `null`. -/
def renderOverviewCells (statsObj : OverviewRow) :
    Except String (List String) :=
  match jsToFixed statsObj.success_rate 1 with
  | .error e => .error e
  | .ok sr =>
    .ok [intToLocaleString statsObj.total_reports,
      intToLocaleString statsObj.unique_ips,
      intToLocaleString statsObj.unique_domains, sr ++ "%"]

/-- Overview handler shared shape: the query result list always holds the
single aggregate row, so the `stats.length > 0 ? stats[0] : {..zeros..}`
fallback in the source never fires; rendering errors reach `app.onError`. -/
def overviewRouteWith (statsRow : OverviewRow) : HttpResponse :=
  let stats := [statsRow]
  let statsObj :=
    match stats with
    | statsRow0 :: _ => statsRow0
    | [] => ⟨0, 0, 0, some 0⟩
  match renderOverviewCells statsObj with
  | .error _ => .errorPage
  | .ok cells => .page cells

/-- First-revision overview route `app.get('/')`. -/
def overviewRoutePlain (dmarc_reports : List ReportRow) (cid : String) :
    HttpResponse :=
  overviewRouteWith (overviewStatsPlain dmarc_reports cid)

/-- Third-revision overview route `app.get('/dashboard/')`. -/
def overviewRouteCoalesce (dmarc_reports : List ReportRow) (cid : String) :
    HttpResponse :=
  overviewRouteWith (overviewStatsCoalesce dmarc_reports cid)

/-- C5 (counterexample): for a tenant with zero matching rows the plain
overview handler does not render zeros — the aggregate row's success rate is
SQL `NULL`, `null.toFixed(1)` throws, and the response is the generic 500
error page. -/
theorem overview_plain_zero_rows_counterexample :
    overviewRoutePlain
        [{ customer_id := "other", source_ip := "1.2.3.4",
           header_from := "a.com", dkim_result := 1, spf_result := 1,
           disposition := 1, date_range_begin := 0, date_range_end := 0,
           policy_override_type := none, error := none, count := 1 }]
        "acme" = .errorPage ∧
    overviewRoutePlain
        [{ customer_id := "other", source_ip := "1.2.3.4",
           header_from := "a.com", dkim_result := 1, spf_result := 1,
           disposition := 1, date_range_begin := 0, date_range_end := 0,
           policy_override_type := none, error := none, count := 1 }]
        "acme" ≠ .page ["0", "0", "0", "0.0%"] := by
  refine ⟨by rfl, ?_⟩
  intro h
  rw [show overviewRoutePlain
      [{ customer_id := "other", source_ip := "1.2.3.4",
         header_from := "a.com", dkim_result := 1, spf_result := 1,
         disposition := 1, date_range_begin := 0, date_range_end := 0,
         policy_override_type := none, error := none, count := 1 }]
      "acme" = .errorPage from rfl] at h
  exact HttpResponse.noConfusion h

/-- C5 (amended): for every tenant whose `dmarc_reports` query matches zero
rows, the COALESCE overview handler (`/dashboard/`) renders all four
statistics as zero values on a normal page, while the plain overview handler
(`/`) computes a `NULL` success rate, throws in `toFixed`, and returns the
generic 500 error page instead. -/
theorem overview_zero_rows (dmarc_reports : List ReportRow) (cid : String)
    (hzero : tenantRows dmarc_reports cid = []) :
    overviewRouteCoalesce dmarc_reports cid =
      .page ["0", "0", "0", "0.0%"] ∧
    overviewRoutePlain dmarc_reports cid = .errorPage := by
  constructor
  · simp [overviewRouteCoalesce, overviewRouteWith, overviewStatsCoalesce,
      hzero, renderOverviewCells, jsToFixed, successCount]
    constructor
    · rfl
    · rfl
  · simp [overviewRoutePlain, overviewRouteWith, overviewStatsPlain,
      hzero, renderOverviewCells, jsToFixed]

/-- C5 (witness): a tenant absent from a one-row table exercises both parts
of `overview_zero_rows`. -/
theorem overview_zero_rows_witness :
    overviewRouteCoalesce
        [{ customer_id := "other", source_ip := "1.2.3.4",
           header_from := "a.com", dkim_result := 1, spf_result := 1,
           disposition := 1, date_range_begin := 0, date_range_end := 0,
           policy_override_type := none, error := none, count := 1 }]
        "zrows" = .page ["0", "0", "0", "0.0%"] ∧
    overviewRoutePlain
        [{ customer_id := "other", source_ip := "1.2.3.4",
           header_from := "a.com", dkim_result := 1, spf_result := 1,
           disposition := 1, date_range_begin := 0, date_range_end := 0,
           policy_override_type := none, error := none, count := 1 }]
        "zrows" = .errorPage :=
  overview_zero_rows
    [{ customer_id := "other", source_ip := "1.2.3.4",
       header_from := "a.com", dkim_result := 1, spf_result := 1,
       disposition := 1, date_range_begin := 0, date_range_end := 0,
       policy_override_type := none, error := none, count := 1 }]
    "zrows" (by rfl)

/-- Row of the `domain_stats` table. -/
structure DomainStatsRow where
  customer_id : String
  domain : String
  report_count : Int
  first_seen : Int
  last_seen : Int
deriving DecidableEq, Inhabited

/-- Row of the `domain_stats LEFT JOIN dmarc_reports` product: the report
side is `none` when a domain has no matching report rows. -/
structure JoinedRow where
  ds : DomainStatsRow
  dr : Option ReportRow
deriving DecidableEq, Inhabited

/-- Join step `LEFT JOIN dmarc_reports dr ON ds.domain = dr.header_from`: every
`domain_stats` row pairs with each matching report row, or with a single
all-`NULL` report side when none matches. -/
def leftJoinDomain (dsRows : List DomainStatsRow)
    (dmarc_reports : List ReportRow) : List JoinedRow :=
  dsRows.flatMap (fun ds =>
    let ms := dmarc_reports.filter (fun dr => dr.header_from == ds.domain)
    match ms with
    | [] => [⟨ds, none⟩]
    | _ :: _ => ms.map (fun dr => ⟨ds, some dr⟩))

/-- Result row of the domain-summary query. -/
structure DomainRow where
  domain : String
  report_count : Int
  first_seen : Int
  last_seen : Int
  unique_ips : Int
  passed : Int
  total : Int
deriving DecidableEq, Inhabited

/-- Insertion step of a stable sort by a descending integer key. -/
def insertDescBy {α : Type} (key : α → Int) (x : α) :
    List α → List α
  | [] => [x]
  | y :: ys =>
    if key y < key x then x :: y :: ys else y :: insertDescBy key x ys

/-- Sorting `ORDER BY .. DESC` modelled as insertion sort on the key. -/
def sortDescBy {α : Type} (key : α → Int) : List α → List α
  | [] => []
  | x :: xs => insertDescBy key x (sortDescBy key xs)

/-- Helper: insertion preserves the elements. -/
theorem mem_insertDescBy {α : Type} (key : α → Int) (x a : α)
    (l : List α) : a ∈ insertDescBy key x l ↔ a = x ∨ a ∈ l := by
  induction l with
  | nil => simp [insertDescBy]
  | cons y ys ih =>
    by_cases h : key y < key x
    · simp [insertDescBy, h]
    · simp [insertDescBy, h, ih]
      tauto

/-- Helper: sorting preserves the elements. -/
theorem mem_sortDescBy {α : Type} (key : α → Int) (a : α) (l : List α) :
    a ∈ sortDescBy key l ↔ a ∈ l := by
  induction l with
  | nil => simp [sortDescBy]
  | cons x xs ih =>
    simp [sortDescBy, mem_insertDescBy, ih]

/-- Domain-summary query, from `app.get('/domain-summary')` in
`src/index.js` (lines 307-321, identical in the other revisions): filter
`domain_stats` by tenant, left-join the reports on the domain name, group by
`ds.domain`, and per group take `COUNT(*)` as `total`, the conditional sum of
full passes as `passed`, `COUNT(DISTINCT dr.source_ip)` (ignoring the `NULL`
report side) as `unique_ips`, and the bare `ds.*` columns from the group's
first row; ordered by `report_count` descending. -/
def domainSummaryQuery (domain_stats : List DomainStatsRow)
    (dmarc_reports : List ReportRow) (cid : String) : List DomainRow :=
  let dsRows := domain_stats.filter (fun ds => ds.customer_id == cid)
  let joined := leftJoinDomain dsRows dmarc_reports
  let domains := (joined.map (fun j => j.ds.domain)).dedup
  let rows := domains.map (fun d =>
    let group := joined.filter (fun j => j.ds.domain == d)
    let hd := group.headI
    { domain := d
      report_count := hd.ds.report_count
      first_seen := hd.ds.first_seen
      last_seen := hd.ds.last_seen
      unique_ips :=
        (((group.filterMap (fun j => j.dr)).map
          (fun dr => dr.source_ip)).dedup).length
      passed := (group.countP (fun j =>
        match j.dr with
        | some dr => dr.dkim_result == 1 && dr.spf_result == 1
        | none => false) : Nat)
      total := group.length })
  sortDescBy (fun r => r.report_count) rows

/-- JavaScript evaluation of `((row.passed / row.total) * 100).toFixed(2)`:
number division never throws; `0 / 0` is `NaN` and `p / 0` for nonzero `p`
is a signed infinity, and `toFixed` renders those as their names. -/
def jsDivPercentToFixed2 (passed total : Int) : String :=
  if total = 0 then
    if passed = 0 then "NaN"
    else if 0 < passed then "Infinity"
    else "-Infinity"
  else ratToFixed ((passed : ℚ) / (total : ℚ) * 100) 2

/-- Pass-rate cell of the domain-summary table. -/
def passRateCell (row : DomainRow) : String :=
  jsDivPercentToFixed2 row.passed row.total ++ "%"

/-- Domain-summary handler body: maps the result rows into table rows.  No
operation in the row template can throw (JS division and `toFixed` are
total, the date rendering accepts any number), so the handler always
produces a normal page. -/
def domainSummaryHandler (data : List DomainRow) : HttpResponse :=
  .page (data.map passRateCell)

/-- Artificial domain-summary result row with a zero total, for exercising
the unguarded division. -/
def zeroTotalRow : DomainRow :=
  { domain := "a.com", report_count := 1, first_seen := 0, last_seen := 0,
    unique_ips := 0, passed := 0, total := 0 }

/-- Example `domain_stats` table with one row for tenant `acme` whose domain
matches no report. -/
def acmeDomainStats : List DomainStatsRow :=
  [{ customer_id := "acme", domain := "a.com", report_count := 3,
     first_seen := 0, last_seen := 9 }]

/-- C6 (counterexample): on a result row with `total = 0` the handler does
not fail — JS division by zero yields `NaN`, the cell renders as `"NaN%"`,
and a normal page is returned. -/
theorem domain_summary_zero_total_counterexample :
    domainSummaryHandler [zeroTotalRow] = .page ["NaN%"] ∧
    domainSummaryHandler [zeroTotalRow] ≠ .errorPage := by
  refine ⟨by rfl, ?_⟩
  intro h
  rw [show domainSummaryHandler [zeroTotalRow] = .page ["NaN%"] from rfl]
    at h
  exact HttpResponse.noConfusion h

/-- C6 (amended): the pass-rate ratio `passed / total` is indeed computed
with no zero-guard, but the handler never fails: it always returns a normal
page, a row with `total = 0` (and hence `passed = 0`) renders its pass rate
as `"NaN%"`, and in fact every result row of the grouped query has
`total ≥ 1` (`COUNT(*)` over a non-empty group), so the unguarded division
is never a division by zero on real query output. -/
theorem domain_summary_pass_rate (domain_stats : List DomainStatsRow)
    (dmarc_reports : List ReportRow) (cid : String) (data : List DomainRow) :
    domainSummaryHandler data = .page (data.map passRateCell) ∧
    (∀ row ∈ data, row.total = 0 → row.passed = 0 →
      passRateCell row = "NaN%") ∧
    (∀ row ∈ domainSummaryQuery domain_stats dmarc_reports cid,
      1 ≤ row.total) := by
  refine ⟨rfl, ?_, ?_⟩
  · intro row _ htot hpass
    simp [passRateCell, jsDivPercentToFixed2, htot, hpass]
  · intro row hrow
    rw [domainSummaryQuery, mem_sortDescBy] at hrow
    simp only [List.mem_map] at hrow
    obtain ⟨d, hd, hrfl⟩ := hrow
    rw [List.mem_dedup, List.mem_map] at hd
    obtain ⟨j, hj, hjd⟩ := hd
    have hmem : j ∈ (leftJoinDomain
        (domain_stats.filter (fun ds => ds.customer_id == cid))
        dmarc_reports).filter (fun j => j.ds.domain == d) := by
      rw [List.mem_filter]
      exact ⟨hj, by simp [hjd]⟩
    have hpos : 0 < ((leftJoinDomain
        (domain_stats.filter (fun ds => ds.customer_id == cid))
        dmarc_reports).filter (fun j => j.ds.domain == d)).length :=
      List.length_pos.mpr (fun hnil => by simp [hnil] at hmem)
    rw [← hrfl]
    simpa using hpos

/-- C6 (witness): a concrete `domain_stats`/`dmarc_reports` pair whose
single unmatched domain yields a query row with `total = 1`, plus the
`NaN%` rendering of an artificial zero-total row. -/
theorem domain_summary_pass_rate_witness :
    domainSummaryHandler [zeroTotalRow] =
      .page ([zeroTotalRow].map passRateCell) ∧
    passRateCell zeroTotalRow = "NaN%" ∧
    (1 : Int) ≤ ((domainSummaryQuery acmeDomainStats [] "acme").headI).total
    := by
  have h := domain_summary_pass_rate acmeDomainStats [] "acme"
    [zeroTotalRow]
  refine ⟨h.1, ?_, ?_⟩
  · exact h.2.1 zeroTotalRow (by simp) rfl rfl
  · exact h.2.2 ((domainSummaryQuery acmeDomainStats [] "acme").headI)
      (by rw [show (domainSummaryQuery acmeDomainStats [] "acme") =
          [{ domain := "a.com", report_count := 3, first_seen := 0,
             last_seen := 9, unique_ips := 0, passed := 0, total := 1 }]
          from rfl]
          simp [List.headI])

/-- Result object returned by a D1 `stmt.all()` call: its `results` field
may be absent. -/
structure D1Result (Row : Type) where
  results : Option (List Row)

/-- External database binding (`c.env.DB`) as seen by one `fetchData` call:
each of `prepare`, `bind` and `all` may throw. -/
structure DbEnv (Row : Type) where
  prepareRes : Except String Unit
  bindRes : Except String Unit
  allRes : Except String (D1Result Row)

/-- Body of `fetchData`'s `try` block: `prepare`, then `bind` when the
params argument is an array, then `all`. -/
def runQuery {Row : Type} (env : DbEnv Row) (paramsIsArray : Bool) :
    Except String (D1Result Row) :=
  match env.prepareRes with
  | .error e => .error e
  | .ok _ =>
    match (if paramsIsArray then env.bindRes else .ok ()) with
    | .error e => .error e
    | .ok _ => env.allRes

/-- Query helper `fetchData(env, query, params)`, from `src/index.js` lines
51-66 (identical in every revision): any error thrown by the statement
pipeline is caught and turned into `[]`, and a missing `results` field also
yields `[]` via `result.results || []`. -/
def fetchData {Row : Type} (env : DbEnv Row) (paramsIsArray : Bool) :
    List Row :=
  match runQuery env paramsIsArray with
  | .error _ => []
  | .ok result => result.results.getD []

/-- C7: `fetchData` converts every database error into the empty row list —
whichever stage of the pipeline throws, the caller receives `[]` and the
failure is not propagated — and on success the caller receives exactly the
(possibly empty) result rows. -/
theorem fetchData_error_empty {Row : Type} (env : DbEnv Row)
    (paramsIsArray : Bool) :
    (∀ e, runQuery env paramsIsArray = .error e →
      fetchData env paramsIsArray = []) ∧
    (∀ result, runQuery env paramsIsArray = .ok result →
      fetchData env paramsIsArray = result.results.getD []) := by
  constructor
  · intro e he
    simp [fetchData, he]
  · intro result hr
    simp [fetchData, hr]

/-- C7 (witness): a pipeline whose `all()` throws yields `[]` for the
caller. -/
theorem fetchData_error_empty_witness :
    fetchData
      (⟨.ok (), .ok (), .error "D1_ERROR: no such table"⟩ : DbEnv Nat)
      true = [] :=
  (fetchData_error_empty
    (⟨.ok (), .ok (), .error "D1_ERROR: no such table"⟩ : DbEnv Nat)
    true).1 "D1_ERROR: no such table" rfl

/-- JSON body of a geolocation response, as used by the handler: only the
`country` field is read, and it may be absent. -/
structure GeoJson where
  country : Option String
deriving DecidableEq

/-- Outcome of one `fetch` to `http://ip-api.com/json/<ip>?fields=country`:
the promise rejects (network error or the 5000 ms timeout), or a response
arrives with an `ok` flag and a body whose JSON parse may itself throw
(`none`). -/
inductive FetchOutcome
  | failure
  | response (ok : Bool) (status : Nat) (body : Option GeoJson)

/-- Per-address lookup `getLocationData(ip)`, from the geo-distribution
handler (`unnamed/part_000` lines 189-206, `src/index.js` lines 1235-1252):
everything runs in a `try` whose `catch` returns the sentinel `'Unknown'`;
a non-`ok` response is turned into a thrown error; a successful parse
returns the `country` field (which is `undefined` when absent). -/
def getLocationData (world : String → FetchOutcome) (ip : String) :
    Option String :=
  match world ip with
  | .failure => some "Unknown"
  | .response ok _ body =>
    if ok = false then some "Unknown"
    else
      match body with
      | none => some "Unknown"
      | some locationData => locationData.country

/-- Per-IP aggregate produced by the geo query
(`SELECT source_ip, COUNT(*) .. GROUP BY source_ip`). -/
structure IpCount where
  source_ip : String
  total : Int
deriving DecidableEq

/-- Rendered geo table row. -/
structure GeoRow where
  ip : String
  total : Int
  location : Option String
deriving DecidableEq

/-- Enrichment batch: `Promise.all(data.map(..))` maps each aggregate row to
its looked-up location; `getLocationData` never rejects, so the batch never
rejects. -/
def geoDistribution (world : String → FetchOutcome)
    (data : List IpCount) : List GeoRow :=
  data.map (fun row => ⟨row.source_ip, row.total,
    getLocationData world row.source_ip⟩)

/-- C8: a failed lookup (rejected fetch, i.e. network error or timeout, or a
non-success status) yields the sentinel `"Unknown"` for that address, and
the batch entry of index `i` depends only on the world's behaviour at the
address of row `i` — a failure for one address cannot change any other
address's result. -/
theorem geo_lookup_isolated (world world2 : String → FetchOutcome)
    (data : List IpCount) :
    (∀ ip, world ip = .failure → getLocationData world ip =
      some "Unknown") ∧
    (∀ ip status body, world ip = .response false status body →
      getLocationData world ip = some "Unknown") ∧
    (geoDistribution world data).length = data.length ∧
    (∀ i : Nat, ∀ hi : i < data.length,
      world (data[i].source_ip) = world2 (data[i].source_ip) →
      (geoDistribution world data).get
          ⟨i, by simpa [geoDistribution] using hi⟩ =
        (geoDistribution world2 data).get
          ⟨i, by simpa [geoDistribution] using hi⟩) := by
  refine ⟨?_, ?_, by simp [geoDistribution], ?_⟩
  · intro ip h
    simp [getLocationData, h]
  · intro ip status body h
    simp [getLocationData, h]
  · intro i hi hsame
    simp [geoDistribution, getLocationData, hsame]

/-- C8 (witness): a world that times out on `9.9.9.9` but answers for
`8.8.8.8` gives `"Unknown"` for the failing address, and the entry for
`8.8.8.8` is the same as under a world where `9.9.9.9` succeeds. -/
theorem geo_lookup_isolated_witness :
    getLocationData
      (fun ip => if ip = "9.9.9.9" then .failure
        else .response true 200 (some ⟨some "US"⟩)) "9.9.9.9" =
      some "Unknown" ∧
    (geoDistribution
      (fun ip => if ip = "9.9.9.9" then .failure
        else .response true 200 (some ⟨some "US"⟩))
      [⟨"8.8.8.8", 2⟩, ⟨"9.9.9.9", 1⟩]).get ⟨0, by decide⟩ =
    (geoDistribution
      (fun _ => .response true 200 (some ⟨some "US"⟩))
      [⟨"8.8.8.8", 2⟩, ⟨"9.9.9.9", 1⟩]).get ⟨0, by decide⟩ := by
  constructor
  · exact (geo_lookup_isolated
      (fun ip => if ip = "9.9.9.9" then .failure
        else .response true 200 (some ⟨some "US"⟩))
      (fun _ => .response true 200 (some ⟨some "US"⟩))
      [⟨"8.8.8.8", 2⟩, ⟨"9.9.9.9", 1⟩]).1 "9.9.9.9" (by simp)
  · exact (geo_lookup_isolated
      (fun ip => if ip = "9.9.9.9" then .failure
        else .response true 200 (some ⟨some "US"⟩))
      (fun _ => .response true 200 (some ⟨some "US"⟩))
      [⟨"8.8.8.8", 2⟩, ⟨"9.9.9.9", 1⟩]).2.2.2 0 (by decide) (by simp)

/-- Value bound positionally into a prepared statement. -/
inductive SqlParam
  | str (s : String)
  | int (i : Int)
deriving DecidableEq

/-- Scanner state machine collecting the `?N` placeholder indices of an SQL
string (all placeholders in these queries are single-digit). -/
def scanPlaceholdersAux : Bool → List Char → List Nat
  | _, [] => []
  | afterQ, c :: rest =>
    if afterQ && c.isDigit then
      (c.toNat - 48) :: scanPlaceholdersAux false rest
    else scanPlaceholdersAux (c == '?') rest

/-- Placeholder indices referenced by an SQL string. -/
def scanPlaceholders (query : String) : List Nat :=
  scanPlaceholdersAux false query.data

/-- Modelled from the Cloudflare D1 client (external dependency): running a
statement that references a placeholder index greater than the number of
positionally bound values raises an error at query time. -/
def d1BindMismatch (query : String) (params : List SqlParam) : Bool :=
  (scanPlaceholders query).any (fun i => params.length < i)

/-- Base SQL of the first revision's `app.get('/detailed-reports')`
(`src/index.js` lines 357-369), whitespace normalised. -/
def baseDetailedV1 : String :=
  "SELECT date_range_begin, header_from, source_ip, dkim_result, " ++
  "spf_result, disposition, policy_override_type, error " ++
  "FROM dmarc_reports WHERE customer_id = ?1"

/-- Base SQL of `app.get('/dashboard/detailed-reports')` in
`unnamed/part_000` (lines 368-381) and the third revision, whitespace
normalised. -/
def baseDetailedV2 : String :=
  "SELECT date_range_begin, date_range_end, header_from, source_ip, " ++
  "dkim_result, spf_result, disposition, policy_override_type, error " ++
  "FROM dmarc_reports WHERE customer_id = ?1"

/-- Query construction of the first revision's detailed-reports handler
(`src/index.js` lines 371-385): each truthy filter appends its clause with a
fixed placeholder index (`?2`, `?3`, `?4`) and pushes one value; the end
filter compares `date_range_begin`.  `dateSec` is
`Math.floor(new Date(x).getTime() / 1000)`. -/
def buildDetailedQueryV1 (customerId startDate endDate domain : String)
    (dateSec : String → Int) : String × List SqlParam :=
  (baseDetailedV1
      ++ (if startDate = "" then "" else " AND date_range_begin >= ?2")
      ++ (if endDate = "" then "" else " AND date_range_begin <= ?3")
      ++ (if domain = "" then "" else " AND header_from LIKE ?4")
      ++ " ORDER BY date_range_begin DESC LIMIT 1000",
    [SqlParam.str customerId]
      ++ (if startDate = "" then []
          else [SqlParam.int (dateSec startDate)])
      ++ (if endDate = "" then [] else [SqlParam.int (dateSec endDate)])
      ++ (if domain = "" then []
          else [SqlParam.str ("%" ++ domain ++ "%")]))

/-- Query construction of the `part_000` detailed-reports handler (lines
383-397): identical placeholder scheme, with the end filter comparing
`date_range_end`. -/
def buildDetailedQueryV2 (customerId startDate endDate domain : String)
    (dateSec : String → Int) : String × List SqlParam :=
  (baseDetailedV2
      ++ (if startDate = "" then "" else " AND date_range_begin >= ?2")
      ++ (if endDate = "" then "" else " AND date_range_end <= ?3")
      ++ (if domain = "" then "" else " AND header_from LIKE ?4")
      ++ " ORDER BY date_range_begin DESC LIMIT 1000",
    [SqlParam.str customerId]
      ++ (if startDate = "" then []
          else [SqlParam.int (dateSec startDate)])
      ++ (if endDate = "" then [] else [SqlParam.int (dateSec endDate)])
      ++ (if domain = "" then []
          else [SqlParam.str ("%" ++ domain ++ "%")]))

/-- List-level check that `pat` occurs at the head of `l`. -/
def startsWithChars : List Char → List Char → Bool
  | [], _ => true
  | _ :: _, [] => false
  | p :: ps, c :: cs => p == c && startsWithChars ps cs

/-- List-level substring containment, modelling `LIKE '%pat%'`. -/
def containsChars (pat : List Char) : List Char → Bool
  | [] => startsWithChars pat []
  | c :: cs => startsWithChars pat (c :: cs) || containsChars pat cs

/-- Intended SQL semantics of the first revision's detailed-reports query
when every referenced placeholder is bound. -/
def evalDetailedV1 (dmarc_reports : List ReportRow)
    (customerId startDate endDate domain : String)
    (dateSec : String → Int) : List ReportRow :=
  (sortDescBy (fun r => r.date_range_begin)
    (dmarc_reports.filter (fun r =>
      r.customer_id == customerId
      && (startDate == "" || decide (dateSec startDate ≤ r.date_range_begin))
      && (endDate == "" || decide (r.date_range_begin ≤ dateSec endDate))
      && (domain == "" ||
          containsChars domain.data r.header_from.data)))).take 1000

/-- Intended SQL semantics of the `part_000` detailed-reports query when
every referenced placeholder is bound. -/
def evalDetailedV2 (dmarc_reports : List ReportRow)
    (customerId startDate endDate domain : String)
    (dateSec : String → Int) : List ReportRow :=
  (sortDescBy (fun r => r.date_range_begin)
    (dmarc_reports.filter (fun r =>
      r.customer_id == customerId
      && (startDate == "" || decide (dateSec startDate ≤ r.date_range_begin))
      && (endDate == "" || decide (r.date_range_end ≤ dateSec endDate))
      && (domain == "" ||
          containsChars domain.data r.header_from.data)))).take 1000

/-- Rows the first revision's detailed-reports page renders: a D1 binding
mismatch throws inside `fetchData`, which catches it and returns `[]`. -/
def detailedReportsRowsV1 (dmarc_reports : List ReportRow)
    (customerId startDate endDate domain : String)
    (dateSec : String → Int) : List ReportRow :=
  if d1BindMismatch (buildDetailedQueryV1 customerId startDate endDate
      domain dateSec).1
      (buildDetailedQueryV1 customerId startDate endDate domain
        dateSec).2 then []
  else evalDetailedV1 dmarc_reports customerId startDate endDate domain
    dateSec

/-- Rows the `part_000` detailed-reports page renders. -/
def detailedReportsRowsV2 (dmarc_reports : List ReportRow)
    (customerId startDate endDate domain : String)
    (dateSec : String → Int) : List ReportRow :=
  if d1BindMismatch (buildDetailedQueryV2 customerId startDate endDate
      domain dateSec).1
      (buildDetailedQueryV2 customerId startDate endDate domain
        dateSec).2 then []
  else evalDetailedV2 dmarc_reports customerId startDate endDate domain
    dateSec

/-- Helper: a placeholder index beyond the bound-parameter count witnesses
a binding mismatch. -/
theorem d1BindMismatch_of (query : String) (params : List SqlParam)
    (i : Nat) (hi : i ∈ scanPlaceholders query)
    (hlen : params.length < i) : d1BindMismatch query params = true := by
  simp only [d1BindMismatch, List.any_eq_true, decide_eq_true_eq]
  exact ⟨i, hi, hlen⟩

/-- Helper: the error path of a guarded query yields no rows. -/
theorem rows_empty_of_mismatch {A : Type} (b : Bool) (l : List A)
    (hb : b = true) : (if b = true then ([] : List A) else l) = [] := by
  simp [hb]

/-- C10: whenever a later filter is supplied without all earlier ones —
`end` without `start`, or `domain` without both date filters — the
constructed SQL (in both revisions) references a placeholder index greater
than the number of bound parameters, and via the fetchData error path the
page renders zero rows. -/
theorem detailed_reports_placeholder_mismatch
    (dmarc_reports : List ReportRow)
    (customerId startDate endDate domain : String)
    (dateSec : String → Int)
    (h : (endDate ≠ "" ∧ startDate = "") ∨
      (domain ≠ "" ∧ (startDate = "" ∨ endDate = ""))) :
    (d1BindMismatch
        (buildDetailedQueryV1 customerId startDate endDate domain
          dateSec).1
        (buildDetailedQueryV1 customerId startDate endDate domain
          dateSec).2 = true ∧
      detailedReportsRowsV1 dmarc_reports customerId startDate endDate
        domain dateSec = []) ∧
    (d1BindMismatch
        (buildDetailedQueryV2 customerId startDate endDate domain
          dateSec).1
        (buildDetailedQueryV2 customerId startDate endDate domain
          dateSec).2 = true ∧
      detailedReportsRowsV2 dmarc_reports customerId startDate endDate
        domain dateSec = []) := by
  by_cases hs : startDate = "" <;> by_cases he : endDate = "" <;>
    by_cases hd : domain = "" <;>
    simp only [hs, he, hd, ne_eq, not_true_eq_false, not_false_eq_true,
      false_and, true_and, and_false, and_true, false_or, or_false,
      or_true, true_or, or_self] at h ⊢ <;>
    refine ⟨⟨?_, ?_⟩, ⟨?_, ?_⟩⟩ <;>
    simp only [detailedReportsRowsV1, detailedReportsRowsV2,
      buildDetailedQueryV1, buildDetailedQueryV2, hs, he, hd,
      if_true, if_false, ite_true, ite_false, eq_self_iff_true] <;>
    first
      | exact d1BindMismatch_of _ _ 4 (by decide) (by simp)
      | exact d1BindMismatch_of _ _ 3 (by decide) (by simp)
      | exact rows_empty_of_mismatch _ _
          (d1BindMismatch_of _ _ 4 (by decide) (by simp))
      | exact rows_empty_of_mismatch _ _
          (d1BindMismatch_of _ _ 3 (by decide) (by simp))

/-- C10 (witness): a request supplying only `end=x` (no `start`, no
`domain`) hits the mismatch in both revisions and renders zero rows. -/
theorem detailed_reports_placeholder_mismatch_witness :
    (d1BindMismatch
        (buildDetailedQueryV1 "acme" "" "x" "" (fun _ => 0)).1
        (buildDetailedQueryV1 "acme" "" "x" "" (fun _ => 0)).2 = true ∧
      detailedReportsRowsV1 [] "acme" "" "x" "" (fun _ => 0) = []) ∧
    (d1BindMismatch
        (buildDetailedQueryV2 "acme" "" "x" "" (fun _ => 0)).1
        (buildDetailedQueryV2 "acme" "" "x" "" (fun _ => 0)).2 = true ∧
      detailedReportsRowsV2 [] "acme" "" "x" "" (fun _ => 0) = []) :=
  detailed_reports_placeholder_mismatch [] "acme" "" "x" "" (fun _ => 0)
    (Or.inl ⟨by decide, rfl⟩)

end DmarcDash
